import Mathlib

/-!
Shallow embedding of the two form components of the jules-components
repository: the login form (src/react/forms/LoginForm.tsx) and the signup
form (the unnamed source file). Each component consists of pure field
validators and a submit handler that validates the field values, records
field errors on failure, and otherwise invokes a submission adapter and
processes its outcome. The embedding models the component state (field
values, loading flag, top-level error, field-errors map), the submit
handlers as pure functions of the adapter outcome, and a small event
semantics for reachable states of a component instance.
-/

namespace Jules

/-- JS string truthiness: a string is truthy iff it is non-empty.
Used for the checks `if (emailError || passwordError)`, `if (result?.error)`
and `data.error || ...` in the source. -/
def truthy (s : String) : Bool := s != ""

/-- Truthiness of `result?.error` style optional chains: an absent value is
falsy, a present string is truthy iff non-empty. -/
def optTruthy : Option String → Bool
  | none => false
  | some s => truthy s

/-- Models JS `s.includes(c)` for a single-character needle: the character
occurs in the string. Both source files only call includes with a
one-character argument. -/
def includesChar (s : String) (c : Char) : Bool := s.data.contains c

/-- validateEmail, identical in LoginForm.tsx and the signup file:
empty gives a required message; missing an at sign or missing a dot gives
an invalid-format message; anything else passes (empty string). -/
def validateEmail (email : String) : String :=
  if !(truthy email) then "Email is required"
  else if !(includesChar email '@') || !(includesChar email '.') then "Invalid email format"
  else ""

/-- validatePassword of LoginForm.tsx: only a non-empty check. -/
def loginValidatePassword (password : String) : String :=
  if !(truthy password) then "Password is required"
  else ""

/-- validatePassword of the signup file: non-empty, then length at least 8.
String length is modelled as character count. -/
def signupValidatePassword (password : String) : String :=
  if !(truthy password) then "Password is required"
  else if password.length < 8 then "Password must be at least 8 characters"
  else ""

/-- The fieldErrors state value: the TS object type
`\x7b email?: string; password?: string \x7d`. `none` means the key is
absent, `some s` means the key is present with value `s` (possibly the
empty string). -/
structure FieldErrors where
  email : Option String
  password : Option String
deriving DecidableEq, Repr

/-- The useState cell values of one form instance: email, password,
loading, error, fieldErrors. -/
structure FormState where
  email : String
  password : String
  loading : Bool
  error : String
  fieldErrors : FieldErrors
deriving DecidableEq, Repr

/-- State at mount: all strings empty, loading false, fieldErrors `\x7b\x7d`. -/
def initialState : FormState :=
  { email := "", password := "", loading := false, error := "",
    fieldErrors := { email := none, password := none } }

/-- The success action taken by a handler: invoke the onSuccess callback, or
assign window.location.href to a URL. -/
inductive SuccessAction where
  | callback
  | navigate (url : String)
deriving DecidableEq, Repr

/-- Result of one handleSubmit call: the final component state, whether the
submission adapter (signIn or fetch) was invoked, and the success action
taken, if any. -/
structure SubmitResult where
  state : FormState
  adapterCalled : Bool
  action : Option SuccessAction
deriving DecidableEq, Repr

/-- The part of the login handleSubmit that runs before the signIn call:
validate both fields; on any failure record both messages in fieldErrors
and stop (second component false); otherwise set loading true and clear the
top-level error (second component true: proceed to the adapter).
Mirrors LoginForm.tsx lines 62-73. -/
def loginValidatePhase (s : FormState) : FormState × Bool :=
  if truthy (validateEmail s.email) || truthy (loginValidatePassword s.password) then
    ({ s with fieldErrors :=
        { email := some (validateEmail s.email),
          password := some (loginValidatePassword s.password) } }, false)
  else
    ({ s with loading := true, error := "" }, true)

/-- The part of the signup handleSubmit that runs before the fetch call.
Mirrors the signup file lines 59-70; same shape as the login phase but with
the signup password validator. -/
def signupValidatePhase (s : FormState) : FormState × Bool :=
  if truthy (validateEmail s.email) || truthy (signupValidatePassword s.password) then
    ({ s with fieldErrors :=
        { email := some (validateEmail s.email),
          password := some (signupValidatePassword s.password) } }, false)
  else
    ({ s with loading := true, error := "" }, true)

/-- The login handleSubmit (LoginForm.tsx lines 62-91). The signIn call is
modelled by its observable outcome `signInResult`: the value of
`result?.error` (none when the result or its error field is absent). On a
truthy error the handler sets the fixed top-level message and clears
loading; otherwise it invokes onSuccess when supplied, else navigates to
redirectUrl — and does not touch the loading flag. -/
def loginHandleSubmit (hasOnSuccess : Bool) (redirectUrl : String)
    (signInResult : Option String) (s : FormState) : SubmitResult :=
  let vp := loginValidatePhase s
  if vp.2 then
    if optTruthy signInResult then
      { state := { vp.1 with error := "Invalid email or password", loading := false },
        adapterCalled := true, action := none }
    else
      { state := vp.1, adapterCalled := true,
        action := some (if hasOnSuccess then SuccessAction.callback
                        else SuccessAction.navigate redirectUrl) }
  else
    { state := vp.1, adapterCalled := false, action := none }

/-- Body of a non-ok signup response: either response.json() throws
(parseError), or it yields an object whose error field is absent or a
string. -/
inductive SignupBody where
  | parseError
  | json (errorField : Option String)
deriving DecidableEq, Repr

/-- Outcome of the signup fetch: the fetch itself throws (network error), or
a response arrives with an ok flag and a body. -/
inductive FetchOutcome where
  | networkError
  | response (ok : Bool) (body : SignupBody)
deriving DecidableEq, Repr

/-- The signup handleSubmit (signup file lines 59-96). On an ok response the
handler invokes onSuccess when supplied, else navigates to loginUrl; on a
non-ok response it parses the body and sets `data.error || "Signup failed"`;
a thrown fetch or body parse is caught and sets "Something went wrong"; the
finally block clears loading on every adapter path. -/
def signupHandleSubmit (hasOnSuccess : Bool) (loginUrl : String)
    (fetchResult : FetchOutcome) (s : FormState) : SubmitResult :=
  let vp := signupValidatePhase s
  if vp.2 then
    match fetchResult with
    | FetchOutcome.networkError =>
        { state := { vp.1 with error := "Something went wrong", loading := false },
          adapterCalled := true, action := none }
    | FetchOutcome.response ok body =>
        if ok then
          { state := { vp.1 with loading := false },
            adapterCalled := true,
            action := some (if hasOnSuccess then SuccessAction.callback
                            else SuccessAction.navigate loginUrl) }
        else
          match body with
          | SignupBody.parseError =>
              { state := { vp.1 with error := "Something went wrong", loading := false },
                adapterCalled := true, action := none }
          | SignupBody.json errorField =>
              { state := { vp.1 with
                  error := match errorField with
                    | some e => if truthy e then e else "Signup failed"
                    | none => "Signup failed",
                  loading := false },
                adapterCalled := true, action := none }
  else
    { state := vp.1, adapterCalled := false, action := none }

/-- Events a mounted login form instance can process: the two input change
handlers and a submit with a given configuration and adapter outcome. -/
inductive LoginEvent where
  | setEmail (v : String)
  | setPassword (v : String)
  | submit (hasOnSuccess : Bool) (redirectUrl : String) (signInResult : Option String)
deriving DecidableEq, Repr

/-- One step of the login form instance. -/
def loginStep (s : FormState) : LoginEvent → FormState
  | LoginEvent.setEmail v => { s with email := v }
  | LoginEvent.setPassword v => { s with password := v }
  | LoginEvent.submit h r a => (loginHandleSubmit h r a s).state

/-- State of a login form instance after a sequence of events from mount. -/
def loginRun (events : List LoginEvent) : FormState :=
  events.foldl loginStep initialState

/-- Events a mounted signup form instance can process. -/
inductive SignupEvent where
  | setEmail (v : String)
  | setPassword (v : String)
  | submit (hasOnSuccess : Bool) (loginUrl : String) (fetchResult : FetchOutcome)
deriving DecidableEq, Repr

/-- One step of the signup form instance. -/
def signupStep (s : FormState) : SignupEvent → FormState
  | SignupEvent.setEmail v => { s with email := v }
  | SignupEvent.setPassword v => { s with password := v }
  | SignupEvent.submit h u f => (signupHandleSubmit h u f s).state

/-- State of a signup form instance after a sequence of events from mount. -/
def signupRun (events : List SignupEvent) : FormState :=
  events.foldl signupStep initialState

/-- A concrete login event sequence: a submit fails validation on the email
field and records field errors, then the user fixes the email. In the
resulting state both validators pass but the stale invalid-format message is
still recorded. -/
def staleTrace : List LoginEvent :=
  [LoginEvent.setEmail "bad", LoginEvent.setPassword "x",
   LoginEvent.submit false "/" none, LoginEvent.setEmail "a@b.c"]

/-- Shape invariant of the fieldErrors map of the login form: it is either
empty (both keys absent) or records a full failed validation pass — both
keys present, each holding the validator output for some field values at
least one of which failed. -/
def loginFieldErrorsInv (fe : FieldErrors) : Prop :=
  fe = { email := none, password := none } ∨
  ∃ e p, fe = { email := some (validateEmail e),
                password := some (loginValidatePassword p) } ∧
    (truthy (validateEmail e) || truthy (loginValidatePassword p)) = true

/-- Shape invariant of the fieldErrors map of the signup form. -/
def signupFieldErrorsInv (fe : FieldErrors) : Prop :=
  fe = { email := none, password := none } ∨
  ∃ e p, fe = { email := some (validateEmail e),
                password := some (signupValidatePassword p) } ∧
    (truthy (validateEmail e) || truthy (signupValidatePassword p)) = true

end Jules

namespace Jules

/-! Helper lemmas shared by several claims. -/

/-- The login handleSubmit never changes fieldErrors after the validation
phase: every adapter branch keeps the fieldErrors of the pre-adapter state. -/
theorem loginSubmit_fieldErrors (h : Bool) (r : String) (a : Option String)
    (s : FormState) :
    (loginHandleSubmit h r a s).state.fieldErrors
      = (loginValidatePhase s).1.fieldErrors := by
  unfold loginHandleSubmit
  by_cases hv : (loginValidatePhase s).2 <;>
    by_cases ha : optTruthy a <;> simp [hv, ha]

/-- The signup handleSubmit never changes fieldErrors after the validation
phase. -/
theorem signupSubmit_fieldErrors (h : Bool) (u : String) (f : FetchOutcome)
    (s : FormState) :
    (signupHandleSubmit h u f s).state.fieldErrors
      = (signupValidatePhase s).1.fieldErrors := by
  unfold signupHandleSubmit
  by_cases hv : (signupValidatePhase s).2 <;>
    cases f with
    | networkError => simp [hv]
    | response ok body => cases ok <;> cases body <;> simp [hv]

/-- One login step preserves the fieldErrors shape invariant. -/
theorem loginStep_preserves_inv (s : FormState) (ev : LoginEvent)
    (h : loginFieldErrorsInv s.fieldErrors) :
    loginFieldErrorsInv (loginStep s ev).fieldErrors := by
  cases ev with
  | setEmail v => exact h
  | setPassword v => exact h
  | submit hb r a =>
      show loginFieldErrorsInv (loginHandleSubmit hb r a s).state.fieldErrors
      rw [loginSubmit_fieldErrors]
      unfold loginValidatePhase
      split
      · next hc => exact Or.inr ⟨s.email, s.password, rfl, hc⟩
      · next hc => exact h

/-- One signup step preserves the fieldErrors shape invariant. -/
theorem signupStep_preserves_inv (s : FormState) (ev : SignupEvent)
    (h : signupFieldErrorsInv s.fieldErrors) :
    signupFieldErrorsInv (signupStep s ev).fieldErrors := by
  cases ev with
  | setEmail v => exact h
  | setPassword v => exact h
  | submit hb u f =>
      show signupFieldErrorsInv (signupHandleSubmit hb u f s).state.fieldErrors
      rw [signupSubmit_fieldErrors]
      unfold signupValidatePhase
      split
      · next hc => exact Or.inr ⟨s.email, s.password, rfl, hc⟩
      · next hc => exact h

/-- The fieldErrors shape invariant holds along any login event sequence. -/
theorem loginRun_inv_aux (evs : List LoginEvent) (s : FormState)
    (h : loginFieldErrorsInv s.fieldErrors) :
    loginFieldErrorsInv (List.foldl loginStep s evs).fieldErrors := by
  induction evs generalizing s with
  | nil => exact h
  | cons ev rest ih => exact ih _ (loginStep_preserves_inv s ev h)

/-- The fieldErrors shape invariant holds along any signup event sequence. -/
theorem signupRun_inv_aux (evs : List SignupEvent) (s : FormState)
    (h : signupFieldErrorsInv s.fieldErrors) :
    signupFieldErrorsInv (List.foldl signupStep s evs).fieldErrors := by
  induction evs generalizing s with
  | nil => exact h
  | cons ev rest ih => exact ih _ (signupStep_preserves_inv s ev h)

end Jules

namespace Jules

/-! Claim C1. -/

/-- Claim C1 counterexample: after a failed attempt (email "bad",
password "x") followed by fixing the email, both validators pass and the
submit proceeds to the adapter, yet the field-errors map at that point (and
after the whole submit) still holds the stale invalid-format entry — it is
not cleared before the adapter is invoked, and it is non-empty although the
last validation pass succeeded. -/
theorem c1_counterexample :
    validateEmail (loginRun staleTrace).email = "" ∧
    loginValidatePassword (loginRun staleTrace).password = "" ∧
    (loginValidatePhase (loginRun staleTrace)).2 = true ∧
    (loginValidatePhase (loginRun staleTrace)).1.fieldErrors
      = { email := some "Invalid email format", password := some "" } ∧
    (loginHandleSubmit false "/" none (loginRun staleTrace)).adapterCalled = true ∧
    ¬ (loginHandleSubmit false "/" none (loginRun staleTrace)).state.fieldErrors
      = { email := none, password := none } := by
  decide

/-- Claim C1 (amended): for both forms, a submit attempt on which both
validators return the empty string proceeds to the adapter with the
field-errors map left unchanged — it is not cleared; moreover the only step
that changes the field-errors map is a submit whose local validation fails,
so the map is non-empty only if some attempt has failed local validation
(whose messages persist across later successful attempts). -/
theorem c1_field_errors_persistence :
    (∀ s : FormState, validateEmail s.email = "" → loginValidatePassword s.password = "" →
      (loginValidatePhase s).2 = true ∧
        (loginValidatePhase s).1.fieldErrors = s.fieldErrors) ∧
    (∀ s : FormState, validateEmail s.email = "" → signupValidatePassword s.password = "" →
      (signupValidatePhase s).2 = true ∧
        (signupValidatePhase s).1.fieldErrors = s.fieldErrors) ∧
    (∀ (s : FormState) (ev : LoginEvent), (loginStep s ev).fieldErrors ≠ s.fieldErrors →
      ∃ h r a, ev = LoginEvent.submit h r a ∧
        (truthy (validateEmail s.email) || truthy (loginValidatePassword s.password)) = true) ∧
    (∀ (s : FormState) (ev : SignupEvent), (signupStep s ev).fieldErrors ≠ s.fieldErrors →
      ∃ h u f, ev = SignupEvent.submit h u f ∧
        (truthy (validateEmail s.email) || truthy (signupValidatePassword s.password)) = true) := by
  refine ⟨?_, ?_, ?_, ?_⟩
  · intro s he hp
    unfold loginValidatePhase
    simp [he, hp, truthy]
  · intro s he hp
    unfold signupValidatePhase
    simp [he, hp, truthy]
  · intro s ev hne
    cases ev with
    | setEmail v => exact absurd rfl hne
    | setPassword v => exact absurd rfl hne
    | submit h r a =>
        simp only [loginStep] at hne
        rw [loginSubmit_fieldErrors] at hne
        by_cases hc : (truthy (validateEmail s.email)
            || truthy (loginValidatePassword s.password)) = true
        · exact ⟨h, r, a, rfl, hc⟩
        · exfalso
          apply hne
          unfold loginValidatePhase
          simp [hc]
  · intro s ev hne
    cases ev with
    | setEmail v => exact absurd rfl hne
    | setPassword v => exact absurd rfl hne
    | submit h u f =>
        simp only [signupStep] at hne
        rw [signupSubmit_fieldErrors] at hne
        by_cases hc : (truthy (validateEmail s.email)
            || truthy (signupValidatePassword s.password)) = true
        · exact ⟨h, u, f, rfl, hc⟩
        · exfalso
          apply hne
          unfold signupValidatePhase
          simp [hc]

/-- Claim C1 witness: the first part of the amended theorem applied to a
concrete state carrying stale field errors — the submit proceeds and the
field-errors map is untouched. -/
theorem c1_field_errors_persistence_witness :
    (loginValidatePhase
        { email := "a@b.c", password := "x", loading := false, error := "",
          fieldErrors := { email := some "Invalid email format", password := some "" } }).2
      = true ∧
    (loginValidatePhase
        { email := "a@b.c", password := "x", loading := false, error := "",
          fieldErrors := { email := some "Invalid email format", password := some "" } }).1.fieldErrors
      = { email := some "Invalid email format", password := some "" } :=
  ⟨(c1_field_errors_persistence.1 _ (by decide) (by decide)).1,
   ((c1_field_errors_persistence.1 _ (by decide) (by decide)).2).trans (by decide)⟩

end Jules

namespace Jules

/-! Claim C2. -/

/-- Claim C2 counterexample: on a successful login submission (adapter
reports no error) the handler invokes the success callback but leaves the
loading (in-progress) flag set to true — it is not cleared. -/
theorem c2_counterexample :
    (loginHandleSubmit true "/" none
        { email := "a@b.c", password := "x", loading := false, error := "",
          fieldErrors := { email := none, password := none } }).action
      = some SuccessAction.callback ∧
    (loginHandleSubmit true "/" none
        { email := "a@b.c", password := "x", loading := false, error := "",
          fieldErrors := { email := none, password := none } }).state.loading = true := by
  decide

/-- Claim C2 (amended): on the Submitting-to-Success transition both forms
invoke the caller-supplied success callback when present and otherwise
navigate to the configured default path, but only the signup form clears the
loading flag (through its finally block); the login form leaves the loading
flag set on success. -/
theorem c2_success_transition :
    (∀ (s : FormState) (h : Bool) (r : String) (a : Option String),
      validateEmail s.email = "" → loginValidatePassword s.password = "" →
      optTruthy a = false →
      (loginHandleSubmit h r a s).action
          = some (if h then SuccessAction.callback else SuccessAction.navigate r) ∧
        (loginHandleSubmit h r a s).state.loading = true) ∧
    (∀ (s : FormState) (h : Bool) (u : String) (b : SignupBody),
      validateEmail s.email = "" → signupValidatePassword s.password = "" →
      (signupHandleSubmit h u (FetchOutcome.response true b) s).action
          = some (if h then SuccessAction.callback else SuccessAction.navigate u) ∧
        (signupHandleSubmit h u (FetchOutcome.response true b) s).state.loading = false) := by
  constructor
  · intro s h r a he hp ha
    unfold loginHandleSubmit loginValidatePhase
    simp [he, hp, ha, truthy]
  · intro s h u b he hp
    unfold signupHandleSubmit signupValidatePhase
    simp [he, hp, truthy]

/-- Claim C2 witness: the signup part of the amended theorem at a concrete
valid state and an ok response — callback invoked and loading cleared. -/
theorem c2_success_transition_witness :
    (signupHandleSubmit true "/login" (FetchOutcome.response true (SignupBody.json none))
        { email := "a@b.c", password := "longenough1", loading := false, error := "",
          fieldErrors := { email := none, password := none } }).action
      = some SuccessAction.callback ∧
    (signupHandleSubmit true "/login" (FetchOutcome.response true (SignupBody.json none))
        { email := "a@b.c", password := "longenough1", loading := false, error := "",
          fieldErrors := { email := none, password := none } }).state.loading = false :=
  ⟨(c2_success_transition.2 _ true "/login" (SignupBody.json none)
      (by decide) (by decide)).1,
   (c2_success_transition.2 _ true "/login" (SignupBody.json none)
      (by decide) (by decide)).2⟩

/-! Claim C3. -/

/-- Claim C3 counterexample: a failed validation pass stores an entry for
every field, so a passing field gets an entry carrying the empty string
(reachable state after typing a valid email and submitting with an empty
password); and after the staleTrace events the email field currently passes
validation yet a non-empty message is still present for it. -/
theorem c3_counterexample :
    (validateEmail (loginRun [LoginEvent.setEmail "a@b.c",
        LoginEvent.submit false "/" none]).email = "" ∧
      (loginRun [LoginEvent.setEmail "a@b.c",
        LoginEvent.submit false "/" none]).fieldErrors.email = some "") ∧
    (validateEmail (loginRun staleTrace).email = "" ∧
      (loginRun staleTrace).fieldErrors.email = some "Invalid email format") := by
  decide

/-- Claim C3 (amended): in every reachable state of either form, the
field-errors map is either empty (no entry present) or records a full failed
validation pass: both fields have an entry, each entry being the validator
output for the field values of that pass, at least one of them a failure
message. A non-empty message can therefore only stem from a field failing at
the recorded pass, but a passing field carries an entry with the empty
string rather than no entry, and entries persist until the next failed
pass. -/
theorem c3_field_errors_shape :
    (∀ evs : List LoginEvent, loginFieldErrorsInv (loginRun evs).fieldErrors) ∧
    (∀ evs : List SignupEvent, signupFieldErrorsInv (signupRun evs).fieldErrors) :=
  ⟨fun evs => loginRun_inv_aux evs initialState (Or.inl rfl),
   fun evs => signupRun_inv_aux evs initialState (Or.inl rfl)⟩

end Jules

namespace Jules

/-! Claim C4. -/

/-- Claim C4 counterexample: the non-empty input "a@b" contains the at sign
and lacks only the dot, yet validateEmail rejects it with the
invalid-format failure — the check rejects when either character is
missing, not only when both are. -/
theorem c4_counterexample :
    truthy "a@b" = true ∧ includesChar "a@b" '@' = true ∧
    includesChar "a@b" '.' = false ∧
    validateEmail "a@b" = "Invalid email format" := by
  decide

/-- Claim C4 (amended): for every non-empty input string, validateEmail
returns the invalid-format failure if and only if the input lacks the at
sign or lacks the dot; an input missing only one of the two characters is
also rejected. -/
theorem c4_invalid_format_iff (s : String) (hs : s ≠ "") :
    validateEmail s = "Invalid email format" ↔
      (includesChar s '@' = false ∨ includesChar s '.' = false) := by
  unfold validateEmail
  have ht : truthy s = true := by simp [truthy, hs]
  rw [ht]
  by_cases h1 : includesChar s '@' <;> by_cases h2 : includesChar s '.' <;>
    simp [h1, h2]

/-- Claim C4 witness: the amended theorem at the concrete input "a@b". -/
theorem c4_invalid_format_iff_witness :
    validateEmail "a@b" = "Invalid email format" ↔
      (includesChar "a@b" '@' = false ∨ includesChar "a@b" '.' = false) :=
  c4_invalid_format_iff "a@b" (by decide)

/-! Claim C5. -/

/-- Claim C5: when any validator returns a non-empty message on submit, both
forms record both field messages simultaneously (the exact validator outputs
for both fields) and return without invoking the submission adapter; at the
concrete input email "bad" and empty password the recorded field errors are
exactly the invalid-format and password-required messages and the adapter is
not called, for either form. -/
theorem c5_invalid_records_all_and_halts :
    (∀ (s : FormState) (h : Bool) (r : String) (a : Option String),
      (truthy (validateEmail s.email) || truthy (loginValidatePassword s.password)) = true →
      (loginHandleSubmit h r a s).state.fieldErrors
          = { email := some (validateEmail s.email),
              password := some (loginValidatePassword s.password) } ∧
        (loginHandleSubmit h r a s).adapterCalled = false) ∧
    (∀ (s : FormState) (h : Bool) (u : String) (f : FetchOutcome),
      (truthy (validateEmail s.email) || truthy (signupValidatePassword s.password)) = true →
      (signupHandleSubmit h u f s).state.fieldErrors
          = { email := some (validateEmail s.email),
              password := some (signupValidatePassword s.password) } ∧
        (signupHandleSubmit h u f s).adapterCalled = false) ∧
    ((loginHandleSubmit false "/" none
        { email := "bad", password := "", loading := false, error := "",
          fieldErrors := { email := none, password := none } }).state.fieldErrors
        = { email := some "Invalid email format", password := some "Password is required" } ∧
      (loginHandleSubmit false "/" none
        { email := "bad", password := "", loading := false, error := "",
          fieldErrors := { email := none, password := none } }).adapterCalled = false) ∧
    ((signupHandleSubmit false "/login" FetchOutcome.networkError
        { email := "bad", password := "", loading := false, error := "",
          fieldErrors := { email := none, password := none } }).state.fieldErrors
        = { email := some "Invalid email format", password := some "Password is required" } ∧
      (signupHandleSubmit false "/login" FetchOutcome.networkError
        { email := "bad", password := "", loading := false, error := "",
          fieldErrors := { email := none, password := none } }).adapterCalled = false) := by
  refine ⟨?_, ?_, by decide, by decide⟩
  · intro s h r a hc
    unfold loginHandleSubmit loginValidatePhase
    simp [hc]
  · intro s h u f hc
    unfold signupHandleSubmit signupValidatePhase
    simp [hc]

/-- Claim C5 witness: the general login part of the theorem at a concrete
failing state — the adapter is not called. -/
theorem c5_invalid_records_all_and_halts_witness :
    (loginHandleSubmit true "/home" (some "boom")
        { email := "bad", password := "x", loading := false, error := "",
          fieldErrors := { email := none, password := none } }).adapterCalled = false :=
  (c5_invalid_records_all_and_halts.1 _ true "/home" (some "boom") (by decide)).2

end Jules

namespace Jules

/-! Claim C6. -/

/-- Claim C6 counterexample: two signup failures with no parseable message
produce two different top-level errors — a parsed body without an error
field yields "Signup failed" while an unparseable body yields "Something
went wrong" — so no single fixed generic fallback string covers the
no-parseable-message failures. -/
theorem c6_counterexample :
    (signupHandleSubmit false "/login" (FetchOutcome.response false (SignupBody.json none))
        { email := "a@b.c", password := "longenough1", loading := false, error := "",
          fieldErrors := { email := none, password := none } }).state.error
      = "Signup failed" ∧
    (signupHandleSubmit false "/login" (FetchOutcome.response false SignupBody.parseError)
        { email := "a@b.c", password := "longenough1", loading := false, error := "",
          fieldErrors := { email := none, password := none } }).state.error
      = "Something went wrong" ∧
    ("Signup failed" : String) ≠ "Something went wrong" := by
  decide

/-- The empty string is falsy. -/
theorem truthy_empty : truthy "" = false := rfl

/-- Claim C6 (amended): on a login adapter failure the top-level error is
the fixed string "Invalid email or password" regardless of the
adapter-supplied message; on a non-2xx signup response whose parsed body has
a non-empty error field, the top-level error equals that field verbatim; on
a non-2xx signup response whose parsed body has no non-empty error field,
the top-level error is the application fallback "Signup failed"; on a signup
failure whose body cannot be parsed, or a network failure, the top-level
error is the transport fallback "Something went wrong". -/
theorem c6_top_level_error_messages :
    (∀ (s : FormState) (h : Bool) (r : String) (a : Option String),
      validateEmail s.email = "" → loginValidatePassword s.password = "" →
      optTruthy a = true →
      (loginHandleSubmit h r a s).state.error = "Invalid email or password") ∧
    (∀ (s : FormState) (h : Bool) (u : String) (e : String),
      validateEmail s.email = "" → signupValidatePassword s.password = "" →
      truthy e = true →
      (signupHandleSubmit h u
        (FetchOutcome.response false (SignupBody.json (some e))) s).state.error = e) ∧
    (∀ (s : FormState) (h : Bool) (u : String),
      validateEmail s.email = "" → signupValidatePassword s.password = "" →
      (signupHandleSubmit h u
          (FetchOutcome.response false (SignupBody.json none)) s).state.error
        = "Signup failed" ∧
      (signupHandleSubmit h u
          (FetchOutcome.response false (SignupBody.json (some ""))) s).state.error
        = "Signup failed") ∧
    (∀ (s : FormState) (h : Bool) (u : String),
      validateEmail s.email = "" → signupValidatePassword s.password = "" →
      (signupHandleSubmit h u
          (FetchOutcome.response false SignupBody.parseError) s).state.error
        = "Something went wrong" ∧
      (signupHandleSubmit h u FetchOutcome.networkError s).state.error
        = "Something went wrong") := by
  refine ⟨?_, ?_, ?_, ?_⟩
  · intro s h r a he hp ha
    unfold loginHandleSubmit loginValidatePhase
    simp [he, hp, ha, truthy]
  · intro s h u e he hp hte
    unfold signupHandleSubmit signupValidatePhase
    simp [he, hp, hte, truthy_empty]
  · intro s h u he hp
    unfold signupHandleSubmit signupValidatePhase
    simp [he, hp, truthy]
  · intro s h u he hp
    unfold signupHandleSubmit signupValidatePhase
    simp [he, hp, truthy]

/-- Claim C6 witness: the verbatim part of the amended theorem at the
concrete body error "Email already in use". -/
theorem c6_top_level_error_messages_witness :
    (signupHandleSubmit false "/login"
        (FetchOutcome.response false (SignupBody.json (some "Email already in use")))
        { email := "a@b.c", password := "longenough1", loading := false, error := "",
          fieldErrors := { email := none, password := none } }).state.error
      = "Email already in use" :=
  c6_top_level_error_messages.2.1 _ false "/login" "Email already in use"
    (by decide) (by decide) (by decide)

/-! Claim C7. -/

/-- Claim C7: every string lacking the at sign or lacking the dot fails
email validation (a non-empty message), and every non-empty string
containing both passes (the empty string is returned). -/
theorem c7_email_validation :
    (∀ s : String, includesChar s '@' = false ∨ includesChar s '.' = false →
      validateEmail s ≠ "") ∧
    (∀ s : String, s ≠ "" → includesChar s '@' = true → includesChar s '.' = true →
      validateEmail s = "") := by
  constructor
  · intro s h
    unfold validateEmail
    by_cases ht : truthy s
    · rcases h with h | h <;> simp [ht, h]
    · simp [ht]
  · intro s hs h1 h2
    unfold validateEmail
    simp [truthy, hs, h1, h2]

/-- Claim C7 witness: both parts at concrete inputs — "nodot@x" lacks the
dot and fails, "a@b.c" contains both and passes. -/
theorem c7_email_validation_witness :
    validateEmail "nodot@x" ≠ "" ∧ validateEmail "a@b.c" = "" :=
  ⟨c7_email_validation.1 "nodot@x" (Or.inr (by decide)),
   c7_email_validation.2 "a@b.c" (by decide) (by decide) (by decide)⟩

end Jules

namespace Jules

/-! Claim C8. -/

/-- Claim C8: the signup validatePassword fails (non-empty message) for
every password shorter than 8 characters and passes (empty string) for
every password of length at least 8; the login validatePassword fails
exactly on the empty password — the required message for the empty string,
a pass for every non-empty string, with no length check. -/
theorem c8_password_validation :
    (∀ p : String, p.length < 8 → signupValidatePassword p ≠ "") ∧
    (∀ p : String, 8 ≤ p.length → signupValidatePassword p = "") ∧
    loginValidatePassword "" = "Password is required" ∧
    (∀ p : String, p ≠ "" → loginValidatePassword p = "") := by
  refine ⟨?_, ?_, by decide, ?_⟩
  · intro p hlen
    unfold signupValidatePassword
    by_cases ht : truthy p
    · simp [ht, hlen]
    · simp [ht]
  · intro p hlen
    have hne : p ≠ "" := by
      intro h
      rw [h] at hlen
      exact absurd hlen (by decide)
    unfold signupValidatePassword
    simp [truthy, hne, Nat.not_lt.mpr hlen]
  · intro p hp
    unfold loginValidatePassword
    simp [truthy, hp]

/-- Claim C8 witness: the four parts at concrete inputs — the 7-character
password "short12" fails signup validation, the 11-character
"longenough1" passes it, the empty password fails login validation, and
the 1-character password "x" passes login validation. -/
theorem c8_password_validation_witness :
    signupValidatePassword "short12" ≠ "" ∧
    signupValidatePassword "longenough1" = "" ∧
    loginValidatePassword "" = "Password is required" ∧
    loginValidatePassword "x" = "" :=
  ⟨c8_password_validation.1 "short12" (by decide),
   c8_password_validation.2.1 "longenough1" (by decide),
   c8_password_validation.2.2.1,
   c8_password_validation.2.2.2 "x" (by decide)⟩

/-! Claim C9. -/

/-- Claim C9: every error outcome of a submit attempt (local validation
failure, adapter-reported failure, or transport failure — exactly the
outcomes with no success action) leaves the email and password field values
unchanged and ends with the loading flag clear, for both forms, so the form
is ready for a new attempt with the field values intact. -/
theorem c9_error_paths_frame :
    (∀ (s : FormState) (h : Bool) (r : String) (a : Option String),
      (loginHandleSubmit h r a s).action = none → s.loading = false →
      (loginHandleSubmit h r a s).state.email = s.email ∧
      (loginHandleSubmit h r a s).state.password = s.password ∧
      (loginHandleSubmit h r a s).state.loading = false) ∧
    (∀ (s : FormState) (h : Bool) (u : String) (f : FetchOutcome),
      (signupHandleSubmit h u f s).action = none → s.loading = false →
      (signupHandleSubmit h u f s).state.email = s.email ∧
      (signupHandleSubmit h u f s).state.password = s.password ∧
      (signupHandleSubmit h u f s).state.loading = false) := by
  constructor
  · intro s h r a hact hload
    by_cases hc : (truthy (validateEmail s.email)
        || truthy (loginValidatePassword s.password)) = true
    · unfold loginHandleSubmit loginValidatePhase
      simp [hc, hload]
    · unfold loginHandleSubmit loginValidatePhase at hact ⊢
      by_cases ha : optTruthy a = true
      · simp [hc, ha]
      · simp [hc, ha] at hact
  · intro s h u f hact hload
    by_cases hc : (truthy (validateEmail s.email)
        || truthy (signupValidatePassword s.password)) = true
    · unfold signupHandleSubmit signupValidatePhase
      simp [hc, hload]
    · unfold signupHandleSubmit signupValidatePhase at hact ⊢
      cases f with
      | networkError => simp [hc]
      | response ok body =>
          cases ok with
          | true => simp [hc] at hact
          | false => cases body <;> simp [hc]

/-- Claim C9 witness: the login part at a concrete adapter-failure outcome —
field values intact and loading cleared. -/
theorem c9_error_paths_frame_witness :
    (loginHandleSubmit false "/" (some "CredentialsSignin")
        { email := "a@b.c", password := "x", loading := false, error := "",
          fieldErrors := { email := none, password := none } }).state.email = "a@b.c" ∧
    (loginHandleSubmit false "/" (some "CredentialsSignin")
        { email := "a@b.c", password := "x", loading := false, error := "",
          fieldErrors := { email := none, password := none } }).state.password = "x" ∧
    (loginHandleSubmit false "/" (some "CredentialsSignin")
        { email := "a@b.c", password := "x", loading := false, error := "",
          fieldErrors := { email := none, password := none } }).state.loading = false :=
  c9_error_paths_frame.1 _ false "/" (some "CredentialsSignin") (by decide) (by decide)

/-! Claim C10. -/

/-- Claim C10: for the signup form, a non-2xx response whose body cannot be
parsed lands in the catch handler shared with network errors, so the
top-level error is the transport message "Something went wrong" and not the
application fallback "Signup failed". -/
theorem c10_unparseable_body_transport_message :
    ∀ (s : FormState) (h : Bool) (u : String),
      validateEmail s.email = "" → signupValidatePassword s.password = "" →
      (signupHandleSubmit h u
          (FetchOutcome.response false SignupBody.parseError) s).state.error
        = "Something went wrong" ∧
      (signupHandleSubmit h u
          (FetchOutcome.response false SignupBody.parseError) s).state.error
        ≠ "Signup failed" := by
  intro s h u he hp
  unfold signupHandleSubmit signupValidatePhase
  simp [he, hp, truthy]

/-- Claim C10 witness: the theorem at a concrete valid state. -/
theorem c10_unparseable_body_transport_message_witness :
    (signupHandleSubmit false "/login"
        (FetchOutcome.response false SignupBody.parseError)
        { email := "a@b.c", password := "longenough1", loading := false, error := "",
          fieldErrors := { email := none, password := none } }).state.error
      = "Something went wrong" :=
  (c10_unparseable_body_transport_message _ false "/login" (by decide) (by decide)).1

end Jules
